import Mathlib

/-!
Verification of the creator-critic agent workflow.

Shallow embedding of the repository sources:
  - `src/agents.py` (Creator, Critic, Evaluation, Attempt),
  - `src/workflow_graph.py` (graph nodes, routing, run_workflow, _build_llm),
  - `src/adcp_payload.py` (contains_emoji, build_adcp_payload).

Python dictionaries over string keys are embedded as association lists
(`List (String × String)`) with insertion-order update semantics. The
LangGraph execution engine is embedded as an explicit fuel-indexed loop
applying the creator node then the critic node, following the graph edges
`__start__ → creator → critic → route → (END | creator)`. The generator
and evaluator capabilities are opaque collaborators; a run supplies them
as oracles indexed by the iteration counter, which covers every
deterministic stateful agent (the internal state of an agent along a run
is a function of how many times it has been called).
-/

/-! ## Python string primitives

The Lean core position-based string functions (`String.split`,
`String.splitOn`, `String.toLower`, ...) do not reduce inside the
kernel, so the Python string operations the sources rely on are embedded
structurally over the underlying character lists. -/

/-- Whitespace characters recognised by the Python `str.split()` /
regex `\s` used in the sources (ASCII subset; the repository only ever
splits ASCII text). -/
def pyIsSpace (c : Char) : Bool :=
  c = ' ' || c = '\t' || c = '\n' || c = '\r' || c = '\x0b' || c = '\x0c'

/-- Worker for `pySplit`: walk the characters keeping the (reversed)
current word. -/
def pySplitAux : List Char → List Char → List String
  | [], acc => if acc.isEmpty then [] else [String.mk acc.reverse]
  | c :: cs, acc =>
    if pyIsSpace c then
      if acc.isEmpty then pySplitAux cs []
      else String.mk acc.reverse :: pySplitAux cs []
    else pySplitAux cs (c :: acc)

/-- Python `caption.split()`: split on runs of whitespace, discarding
empty fragments. -/
def pySplit (s : String) : List String :=
  pySplitAux s.data []

/-- Does `sub` match at the head of `s`? -/
def leadMatch : List Char → List Char → Bool
  | [], _ => true
  | _ :: _, [] => false
  | a :: as, b :: bs => a = b && leadMatch as bs

/-- Does `sub` occur contiguously anywhere in `s`? -/
def occursIn (sub : List Char) : List Char → Bool
  | [] => leadMatch sub []
  | c :: rest => leadMatch sub (c :: rest) || occursIn sub rest

/-- Python substring membership `sub in s` (the empty string is a
substring of everything). -/
def pyIn (sub s : String) : Bool :=
  occursIn sub.data s.data

/-- Python `str.lower()` on a character (ASCII range; the rule strings
and template text in the sources are ASCII apart from emoji, which
`lower` leaves unchanged). -/
def charLower (c : Char) : Char :=
  if 65 ≤ c.toNat ∧ c.toNat ≤ 90 then Char.ofNat (c.toNat + 32) else c

/-- Python `s.lower()`. -/
def pyLower (s : String) : String :=
  String.mk (s.data.map charLower)

/-- Python `s.strip()`: drop leading and trailing whitespace. -/
def pyStrip (s : String) : String :=
  String.mk (((s.data.dropWhile pyIsSpace).reverse.dropWhile pyIsSpace).reverse)

/-- Python `sep.join(words)`. -/
def joinSep (sep : String) : List String → String
  | [] => ""
  | [w] => w
  | w :: rest => w ++ sep ++ joinSep sep rest

/-- Python `re.sub(r"\s+", " ", caption).strip()`: collapse whitespace
runs to single spaces and trim the ends. -/
def pyNormSpace (s : String) : String :=
  joinSep " " (pySplit s)

/-- Worker for `pyReplace`: replace non-overlapping occurrences of `pat`
left to right. The fuel argument (instantiated with the input length)
only makes the recursion structural; each step consumes at least one
character, so the fuel never runs out on the call from `pyReplace`. -/
def pyReplaceAux (pat rep : List Char) : Nat → List Char → List Char
  | 0, s => s
  | _ + 1, [] => []
  | fuel + 1, c :: rest =>
    if !pat.isEmpty && leadMatch pat (c :: rest) then
      rep ++ pyReplaceAux pat rep fuel ((c :: rest).drop pat.length)
    else c :: pyReplaceAux pat rep fuel rest

/-- Python `s.replace(pat, rep)` for a non-empty pattern (every pattern
used by the sources is non-empty). -/
def pyReplace (s pat rep : String) : String :=
  String.mk (pyReplaceAux pat.data rep.data s.data.length s.data)

/-- Python `int(s)` on a decimal string: optional surrounding whitespace,
optional sign, then a nonempty digit run. (Underscore digit grouping,
accepted by Python 3.6+, is not modelled; no repository value uses it.)
Returns `none` where Python raises `ValueError`. -/
def digitsVal (cs : List Char) : Option Nat :=
  if cs ≠ [] ∧ cs.all Char.isDigit then
    some (cs.foldl (fun n c => n * 10 + (c.toNat - 48)) 0)
  else none

/-- Python `int(s)` for string input, see `digitsVal`. -/
def pyInt (s : String) : Option Int :=
  match (pyStrip s).data with
  | '+' :: rest => (digitsVal rest).map Int.ofNat
  | '-' :: rest => (digitsVal rest).map (fun n => -(Int.ofNat n))
  | rest => (digitsVal rest).map Int.ofNat

/-! ## Python dictionaries as association lists -/

/-- Lookup in an insertion-ordered string dictionary (`d.get(k)` /
`d[k]`). -/
def dictGet (d : List (String × String)) (k : String) : Option String :=
  (d.find? (fun p => p.1 = k)).map (fun p => p.2)

/-- Python dict update `{**d, k: v}`: replace the value in place when the
key is present, else append the new pair at the end. -/
def dictUpdate (d : List (String × String)) (k v : String) : List (String × String) :=
  if d.any (fun p => p.1 = k) then
    d.map (fun p => if p.1 = k then (k, v) else p)
  else
    d ++ [(k, v)]

/-! ## adcp_payload.py -/

/-- Embedding of `contains_emoji(text)`: regex search for a character in
U+2600–U+27BF or U+1F300–U+1FAFF. -/
def contains_emoji (text : String) : Bool :=
  text.data.any (fun c =>
    (0x2600 ≤ c.toNat && c.toNat ≤ 0x27BF) ||
    (0x1F300 ≤ c.toNat && c.toNat ≤ 0x1FAFF))

/-! ## agents.py: data model -/

/-- Embedding of the `Evaluation` dataclass: approved flag, feedback string, metadata
dictionary. -/
structure Evaluation where
  approved : Bool
  feedback : String
  metadata : List (String × String)
deriving DecidableEq, Repr

/-- Embedding of the `Attempt` dataclass: a caption paired with its evaluation. -/
structure Attempt where
  caption : String
  evaluation : Evaluation
deriving DecidableEq, Repr

/-! ## workflow_graph.py: graph state and nodes -/

/-- Embedding of the `GraphState` TypedDict from workflow_graph.py. -/
structure GraphState where
  product : String
  audience : String
  caption : String
  feedback : Option String
  approved : Bool
  attempts : List Attempt
  metadata : List (String × String)
  exhausted : Bool
deriving DecidableEq, Repr

/-- The initial state built inside `run_workflow`: empty caption, no
feedback, not approved, empty history, empty metadata, not exhausted. -/
def initialState (product audience : String) : GraphState :=
  { product := product, audience := audience, caption := "", feedback := none,
    approved := false, attempts := [], metadata := [], exhausted := false }

/-- The budget-exhaustion feedback string assembled in `_critic_node`. -/
def exhaustMsg (max_attempts : Nat) (last_feedback : String) : String :=
  "Attempt budget exhausted after " ++ toString max_attempts ++
    " tries. Last feedback: " ++ last_feedback

/-- Embedding of `_creator_node`: pass through when exhausted, otherwise ask the
creator to propose a caption from the current feedback and store it.
The creator capability is the function argument `propose`. -/
def _creator_node (propose : Option String → String) (state : GraphState) : GraphState :=
  if state.exhausted then state
  else { state with caption := propose state.feedback }

/-- Embedding of `_critic_node`: pass through when exhausted; otherwise evaluate the
caption, append the attempt, and either mark exhaustion (budget consumed
and not approved) or copy the evaluation into the state. The evaluator
capability is the function argument `evaluate`. -/
def _critic_node (evaluate : String → Evaluation) (max_attempts : Nat)
    (state : GraphState) : GraphState :=
  if state.exhausted then state
  else
    let evaluation := evaluate state.caption
    let attempts := state.attempts ++ [{ caption := state.caption, evaluation := evaluation }]
    if max_attempts ≤ attempts.length ∧ evaluation.approved = false then
      { state with
          feedback := some (exhaustMsg max_attempts evaluation.feedback),
          approved := false,
          attempts := attempts,
          metadata := dictUpdate (dictUpdate evaluation.metadata "status" "rejected")
            "exhausted" "true",
          exhausted := true }
    else
      { state with
          feedback := some evaluation.feedback,
          approved := evaluation.approved,
          attempts := attempts,
          metadata := evaluation.metadata,
          exhausted := false }

/-- Embedding of `_route`: send to END ("done") when exhausted or approved, else back
to the creator ("retry"). -/
def _route (state : GraphState) : String :=
  if state.exhausted then "done"
  else if state.approved then "done" else "retry"

/-- One compiled-graph step followed by loop-on-retry, with explicit
fuel. `gen k` and `eval k` are the capabilities as called on iteration
`k`; the second component counts the creator/critic iterations actually
performed. -/
def runGraphAux (gen : Nat → Option String → String)
    (eval : Nat → String → Evaluation) (max_attempts : Nat) :
    Nat → Nat → GraphState → GraphState × Nat
  | 0, _, s => (s, 0)
  | fuel + 1, k, s =>
    let s2 := _critic_node (eval k) max_attempts (_creator_node (gen k) s)
    if _route s2 = "done" then (s2, 1)
    else
      let r := runGraphAux gen eval max_attempts fuel (k + 1) s2
      (r.1, r.2 + 1)

/-! ## agents.py: Creator -/

/-- Embedding of the `Creator` class state: product, audience, attempt memory (initialised
empty by `__init__` and written by no method), and the four caption
templates, verbatim from the source. -/
structure Creator where
  product : String
  audience : String
  attempts : List Attempt
  templates : List String
deriving DecidableEq, Repr

/-- Embedding of `Creator.__init__`. -/
def Creator.init (product audience : String) : Creator :=
  { product := product, audience := audience, attempts := [],
    templates :=
      [ "{product}: power up, {audience}! ⚡",
        "Boost with {product} for {audience} 🚀",
        "{audience}, grab {product} and win! 🏆",
        "Stay sharp with {product}, {audience}! ✨" ] }

/-- Python `template.format(product=..., audience=...)` for the fixed
placeholder names used by the templates. -/
def pyFormat (template product audience : String) : String :=
  pyReplace (pyReplace template "{product}" product) "{audience}" audience

/-- Embedding of `Creator._pick_template`: `random.choice(self.templates)`, modelled
by a caller-supplied index reduced modulo the template count (the random
draw is the only nondeterminism; any index is a possible draw). -/
def Creator.pick_template (c : Creator) (pick : Nat) : String :=
  c.templates.getD (pick % c.templates.length) ""

/-- Embedding of `Creator._apply_feedback`: heuristic caption adjustment driven by
keyword search in the lowered feedback, verbatim from the source. -/
def Creator.apply_feedback (c : Creator) (caption0 feedback : String) : String :=
  let lowered := pyLower feedback
  let caption1 :=
    if pyIn "emoji" lowered && !contains_emoji caption0 then caption0 ++ " 🔥"
    else caption0
  let caption2 :=
    if pyIn "too long" lowered || pyIn "under" lowered then
      joinSep " " ((pySplit caption1).take 15)
    else caption1
  let caption3 :=
    if pyIn "mention the product" lowered && !pyIn (pyLower c.product) (pyLower caption2) then
      c.product ++ " - " ++ pyStrip caption2
    else caption2
  pyNormSpace caption3

/-- Embedding of `Creator.propose`: format a fresh template when feedback is absent or
the attempt memory is empty, else adjust the last remembered caption with
the feedback. `pick` supplies the random template draw. -/
def Creator.propose (c : Creator) (pick : Nat) (feedback : Option String) : String :=
  match feedback, c.attempts.getLast? with
  | some fb, some last => c.apply_feedback last.caption fb
  | _, _ => pyFormat (c.pick_template pick) c.product c.audience

/-! ## agents.py: Critic -/

/-- Embedding of the `Critic` class state: product, word limit, blocklist (the Python set
literal, kept in source order; `any` over it is order-independent). -/
structure Critic where
  product : String
  max_words : Nat
  blocklist : List String
deriving DecidableEq, Repr

/-- Embedding of `Critic.__init__` with its default `max_words = 15`. -/
def Critic.init (product : String) (max_words : Nat := 15) : Critic :=
  { product := product, max_words := max_words,
    blocklist := ["kill", "violence", "hate"] }

/-- Embedding of `Critic.evaluate`: apply the four rules in order, accumulating the
failed-rule messages; reject with the joined messages or accept with the
approval metadata. -/
def Critic.evaluate (c : Critic) (caption : String) : Evaluation :=
  let rules_failed : List String := []
  let rules_failed :=
    if contains_emoji caption = false then rules_failed ++ ["Must contain an emoji."]
    else rules_failed
  let word_count := (pySplit caption).length
  let rules_failed :=
    if c.max_words < word_count then
      rules_failed ++
        ["Too long (" ++ toString word_count ++ " words). Keep under " ++
          toString c.max_words ++ "."]
    else rules_failed
  let rules_failed :=
    if pyIn (pyLower c.product) (pyLower caption) = false then
      rules_failed ++ ["Please mention the product by name."]
    else rules_failed
  let rules_failed :=
    if c.blocklist.any (fun term => pyIn term (pyLower caption)) then
      rules_failed ++ ["Contains blocked terms; rewrite for brand safety."]
    else rules_failed
  if rules_failed ≠ [] then
    { approved := false, feedback := joinSep " " rules_failed,
      metadata := [("status", "rejected")] }
  else
    { approved := true, feedback := "Approved",
      metadata :=
        [ ("status", "approved"), ("length", toString caption.length),
          ("word_count", toString word_count), ("brand_safety_check", "passed") ] }

/-! ## adcp_payload.py: build_adcp_payload -/

/-- creative_assets entry. -/
structure CreativeAsset where
  type : String
  content : String
deriving DecidableEq, Repr

/-- payload block of the AdCP envelope. -/
structure AdcpBody where
  target_audience : String
  creative_assets : List CreativeAsset
  product : String
deriving DecidableEq, Repr

/-- metadata block of the AdCP envelope. -/
structure AdcpMeta where
  length : Int
  word_count : Int
  sentiment : String
  brand_safety_check : String
deriving DecidableEq, Repr

/-- The AdCP envelope returned by `build_adcp_payload`. -/
structure AdcpPayload where
  adcp_version : String
  task : String
  payload : AdcpBody
  metadata : AdcpMeta
deriving DecidableEq, Repr

/-- Embedding of `build_adcp_payload`: fixed envelope; `length` and `word_count` are
`int(meta.get(key, recomputed-from-caption))`, which raises (here: `none`)
when a present attribute fails to parse as an integer. -/
def build_adcp_payload (product audience caption : String)
    (meta : List (String × String)) : Option AdcpPayload :=
  let lengthVal :=
    match dictGet meta "length" with
    | some v => pyInt v
    | none => some (Int.ofNat caption.length)
  let wordCountVal :=
    match dictGet meta "word_count" with
    | some v => pyInt v
    | none => some (Int.ofNat (pySplit caption).length)
  match lengthVal, wordCountVal with
  | some l, some w =>
    some
      { adcp_version := "1.0", task := "creative_generation",
        payload :=
          { target_audience := audience,
            creative_assets := [{ type := "text_ad", content := caption }],
            product := product },
        metadata :=
          { length := l, word_count := w, sentiment := "energetic",
            brand_safety_check := (dictGet meta "brand_safety_check").getD "unknown" } }
  | _, _ => none

/-! ## workflow_graph.py: run_workflow and _build_llm -/

/-- The chat-model client value returned by `_build_llm`; the network
clients themselves are opaque collaborators, so only their configuration
is carried. -/
inductive LLM where
  | openai (model : String) (temperature : Rat) (api_key openai_base_url : Option String)
  | ollama (model : String) (temperature : Rat) (base_url : String)
deriving DecidableEq

/-- The guardrail message raised by `_build_llm` for an Ollama-style tag
under the openai provider (the two adjacent source string literals,
concatenated). -/
def ollamaTagMsg : String :=
  "provider=openai but model looks like an Ollama tag (e.g. llama3:8b). " ++
    "Use an OpenAI model name (e.g. gpt-4o-mini, gpt-4.1-mini, etc.)."

/-- Embedding of `_build_llm`: for the openai provider, reject a model name containing
a colon with a `ValueError` (embedded as `Except.error`), else build the
requested client configuration; default to Ollama otherwise. -/
def _build_llm (provider model : String) (temperature : Rat) (base_url : String)
    (api_key openai_base_url : Option String) : Except String LLM :=
  if provider = "openai" then
    if pyIn ":" model then Except.error ollamaTagMsg
    else Except.ok (LLM.openai model temperature api_key openai_base_url)
  else Except.ok (LLM.ollama model temperature base_url)

/-- Embedding of `run_workflow`: build the creator and critic chat clients eagerly
(any `ValueError` from `_build_llm` propagates before the graph is built
or invoked), then run the compiled graph from the initial state. The
concrete agents built from `creator_mode` / `critic_mode` are opaque
capability providers; their per-iteration behaviour is supplied by the
`gen` / `eval` oracles, and `fuel` bounds the engine steps. -/
def run_workflow (gen : Nat → Option String → String)
    (eval : Nat → String → Evaluation)
    (product audience : String) (max_attempts : Nat)
    (creator_mode critic_mode model : String) (temperature : Rat)
    (base_url provider : String) (api_key openai_base_url : Option String)
    (fuel : Nat) : Except String (GraphState × Nat) :=
  match _build_llm provider model temperature base_url api_key openai_base_url with
  | Except.error e => Except.error e
  | Except.ok _creator_llm =>
    match _build_llm provider model 0 base_url api_key openai_base_url with
    | Except.error e => Except.error e
    | Except.ok _critic_llm =>
      Except.ok (runGraphAux gen eval max_attempts fuel 0 (initialState product audience))

/-! ## Claim-side rule description for the reference evaluator -/

/-- The four evaluator rules in their fixed order, each as a failure flag
paired with its message, stated independently of the accumulator loop in
`Critic.evaluate`. -/
def ruleChecks (product : String) (max_words : Nat) (caption : String) :
    List (Bool × String) :=
  [ (decide (contains_emoji caption = false), "Must contain an emoji."),
    (decide (max_words < (pySplit caption).length),
      "Too long (" ++ toString (pySplit caption).length ++ " words). Keep under " ++
        toString max_words ++ "."),
    (decide (pyIn (pyLower product) (pyLower caption) = false),
      "Please mention the product by name."),
    (decide (["kill", "violence", "hate"].any (fun term => pyIn term (pyLower caption)) = true),
      "Contains blocked terms; rewrite for brand safety.") ]

/-- The messages of the failed rules, in the fixed rule order. -/
def failedMessages (product : String) (max_words : Nat) (caption : String) :
    List String :=
  ((ruleChecks product max_words caption).filter (fun r => r.1)).map (fun r => r.2)

/-! ## Attribute-parsing hypothesis for the final payload -/

/-- A metadata attribute, when present, parses as a Python integer. -/
def attrParses : Option String → Bool
  | some v => (pyInt v).isSome
  | none => true

/-! ## Reachable controller states

One `Reach` step is one graph-node application: a creator node built
from an arbitrary propose capability, or a critic node built from an
arbitrary evaluate capability and the fixed budget. -/

/-- States reachable from some initial state by controller
transitions. -/
inductive Reach (max_attempts : Nat) : GraphState → Prop
  | init (product audience : String) : Reach max_attempts (initialState product audience)
  | creator (f : Option String → String) {s : GraphState} :
      Reach max_attempts s → Reach max_attempts (_creator_node f s)
  | critic (e : String → Evaluation) {s : GraphState} :
      Reach max_attempts s → Reach max_attempts (_critic_node e max_attempts s)

/-! ## Structural lemmas about the nodes and the router -/

lemma creator_node_pass (f : Option String → String) (s : GraphState)
    (h : s.exhausted = true) : _creator_node f s = s := by
  simp [_creator_node, h]

lemma creator_node_step (f : Option String → String) (s : GraphState)
    (h : s.exhausted = false) :
    _creator_node f s = { s with caption := f s.feedback } := by
  simp [_creator_node, h]

lemma critic_node_pass (e : String → Evaluation) (m : Nat) (s : GraphState)
    (h : s.exhausted = true) : _critic_node e m s = s := by
  simp [_critic_node, h]

lemma creator_node_fields (f : Option String → String) (s : GraphState) :
    (_creator_node f s).approved = s.approved ∧
    (_creator_node f s).exhausted = s.exhausted ∧
    (_creator_node f s).attempts = s.attempts ∧
    (_creator_node f s).feedback = s.feedback := by
  unfold _creator_node
  split <;> simp

lemma critic_node_attempts (e : String → Evaluation) (m : Nat) (s : GraphState)
    (h : s.exhausted = false) :
    (_critic_node e m s).attempts
      = s.attempts ++ [{ caption := s.caption, evaluation := e s.caption }] := by
  unfold _critic_node
  rw [h, if_neg (by simp)]
  dsimp only
  split <;> rfl

lemma critic_node_excl (e : String → Evaluation) (m : Nat) (s : GraphState)
    (h : ¬(s.approved = true ∧ s.exhausted = true)) :
    ¬((_critic_node e m s).approved = true ∧ (_critic_node e m s).exhausted = true) := by
  unfold _critic_node
  by_cases hex : s.exhausted = true
  · rw [if_pos hex]; exact h
  · rw [if_neg hex]
    dsimp only
    split <;> simp

lemma critic_node_retry (e : String → Evaluation) (m : Nat) (s : GraphState)
    (h : s.exhausted = false)
    (h1 : (_critic_node e m s).exhausted = false)
    (h2 : (_critic_node e m s).approved = false) :
    s.attempts.length + 1 < m := by
  by_cases hc : m ≤ (s.attempts ++ [(⟨s.caption, e s.caption⟩ : Attempt)]).length
      ∧ (e s.caption).approved = false
  · have hex : (_critic_node e m s).exhausted = true := by
      unfold _critic_node
      rw [h, if_neg (by simp)]
      dsimp only
      rw [if_pos hc]
    rw [hex] at h1
    simp at h1
  · have happ : (_critic_node e m s).approved = (e s.caption).approved := by
      unfold _critic_node
      rw [h, if_neg (by simp)]
      dsimp only
      rw [if_neg hc]
    rw [happ] at h2
    simp only [List.length_append, List.length_cons, List.length_nil] at hc
    have hlt : ¬ m ≤ s.attempts.length + 1 := by
      intro hle
      exact hc ⟨by omega, h2⟩
    omega

lemma route_done_iff (s : GraphState) :
    _route s = "done" ↔ (s.exhausted = true ∨ s.approved = true) := by
  unfold _route
  cases he : s.exhausted <;> cases ha : s.approved <;> decide

/-- The composite creator-then-critic iteration increments the history
length by one from any non-exhausted state. -/
lemma iter_attempts_length (f : Option String → String) (e : String → Evaluation)
    (m : Nat) (s : GraphState) (h : s.exhausted = false) :
    (_critic_node e m (_creator_node f s)).attempts.length = s.attempts.length + 1 := by
  have hc := creator_node_step f s h
  rw [hc, critic_node_attempts]
  · simp
  · exact h

/-! ## Run-level lemmas -/

/-- With at least one unit of fuel and enough fuel to cover the budget,
a run from a non-terminal state routes to END and spends at most as many
iterations as its fuel. -/
lemma run_reaches_done (gen : Nat → Option String → String)
    (eval : Nat → String → Evaluation) (m : Nat) :
    ∀ fuel k s, s.exhausted = false → s.approved = false →
      m ≤ s.attempts.length + fuel → 1 ≤ fuel →
      _route (runGraphAux gen eval m fuel k s).1 = "done" ∧
      (runGraphAux gen eval m fuel k s).2 ≤ fuel := by
  intro fuel
  induction fuel with
  | zero => intro k s _ _ _ h4; omega
  | succ fuel ih =>
    intro k s h1 h2 h3 _
    by_cases hd : _route (_critic_node (eval k) m (_creator_node (gen k) s)) = "done"
    · simp [runGraphAux, hd]
    · have hflags := (route_done_iff (_critic_node (eval k) m (_creator_node (gen k) s))).not.mp hd
      push_neg at hflags
      have hex : (_critic_node (eval k) m (_creator_node (gen k) s)).exhausted = false := by
        simpa using hflags.1
      have hap : (_critic_node (eval k) m (_creator_node (gen k) s)).approved = false := by
        simpa using hflags.2
      have hlen := iter_attempts_length (gen k) (eval k) m s h1
      have hcex : (_creator_node (gen k) s).exhausted = false := by
        rw [(creator_node_fields (gen k) s).2.1]; exact h1
      have hretry := critic_node_retry (eval k) m (_creator_node (gen k) s) hcex hex hap
      rw [(creator_node_fields (gen k) s).2.2.1] at hretry
      have ihres := ih (k + 1) (_critic_node (eval k) m (_creator_node (gen k) s))
        hex hap (by omega) (by omega)
      simp only [runGraphAux, hd, if_false]
      exact ⟨ihres.1, by simpa using Nat.add_le_add_right ihres.2 1⟩

/-- From a non-exhausted state, the final history length equals the
starting history length plus the number of iterations performed. -/
lemma run_len (gen : Nat → Option String → String)
    (eval : Nat → String → Evaluation) (m : Nat) :
    ∀ fuel k s, s.exhausted = false →
      (runGraphAux gen eval m fuel k s).1.attempts.length
        = s.attempts.length + (runGraphAux gen eval m fuel k s).2 := by
  intro fuel
  induction fuel with
  | zero => intro k s _; simp [runGraphAux]
  | succ fuel ih =>
    intro k s h1
    have hlen := iter_attempts_length (gen k) (eval k) m s h1
    by_cases hd : _route (_critic_node (eval k) m (_creator_node (gen k) s)) = "done"
    · simp [runGraphAux, hd, hlen]
    · have hflags := (route_done_iff (_critic_node (eval k) m (_creator_node (gen k) s))).not.mp hd
      push_neg at hflags
      have hex : (_critic_node (eval k) m (_creator_node (gen k) s)).exhausted = false := by
        simpa using hflags.1
      have ihres := ih (k + 1) (_critic_node (eval k) m (_creator_node (gen k) s)) hex
      simp only [runGraphAux, hd, if_false]
      rw [ihres, hlen]
      omega

/-! ## Claim theorems -/

/-- C1: for every generator and evaluator and every max_attempts = N with
N at least 1, the loop controller reaches a terminal routing (accepted or
exhausted) within N generate/evaluate iterations, performing at most N of
them; and each iteration taken from a non-exhausted state strictly
increases the history length by one, so the loop cannot run
indefinitely. -/
theorem claim_C1 (gen : Nat → Option String → String)
    (eval : Nat → String → Evaluation) (product audience : String)
    (N : Nat) (hN : 1 ≤ N) :
    (_route (runGraphAux gen eval N N 0 (initialState product audience)).1 = "done" ∧
      (runGraphAux gen eval N N 0 (initialState product audience)).2 ≤ N) ∧
    (∀ k s, s.exhausted = false →
      (_critic_node (eval k) N (_creator_node (gen k) s)).attempts.length
        = s.attempts.length + 1) := by
  constructor
  · exact run_reaches_done gen eval N N 0 (initialState product audience)
      rfl rfl (by simp [initialState]) hN
  · intro k s hs
    exact iter_attempts_length (gen k) (eval k) N s hs

theorem claim_C1_witness :
    1 ≤ 1 ∧
    (_route (runGraphAux (fun _ _ => "cap") (fun _ _ => ⟨false, "no", []⟩) 1 1 0
        (initialState "Prod" "QA")).1 = "done" ∧
      (runGraphAux (fun _ _ => "cap") (fun _ _ => ⟨false, "no", []⟩) 1 1 0
        (initialState "Prod" "QA")).2 ≤ 1) ∧
    (_critic_node ((fun (_ : Nat) (_ : String) => (⟨false, "no", []⟩ : Evaluation)) 0) 1
        (_creator_node ((fun (_ : Nat) (_ : Option String) => "cap") 0)
          (initialState "Prod" "QA"))).attempts.length
      = (initialState "Prod" "QA").attempts.length + 1 :=
  ⟨by decide,
   (claim_C1 (fun _ _ => "cap") (fun _ _ => ⟨false, "no", []⟩) "Prod" "QA" 1 (by decide)).1,
   (claim_C1 (fun _ _ => "cap") (fun _ _ => ⟨false, "no", []⟩) "Prod" "QA" 1 (by decide)).2
     0 (initialState "Prod" "QA") rfl⟩

/-- C2: in every state reachable from an initial state by controller
transitions, the approved and exhausted flags are never both true. -/
theorem claim_C2 (max_attempts : Nat) (s : GraphState)
    (h : Reach max_attempts s) :
    ¬(s.approved = true ∧ s.exhausted = true) := by
  induction h with
  | init product audience => simp [initialState]
  | creator f _ ih =>
    rename_i s' hprev
    have hf := creator_node_fields f s'
    rw [hf.1, hf.2.1]
    exact ih
  | critic e _ ih =>
    rename_i s' hprev
    exact critic_node_excl e max_attempts s' ih

theorem claim_C2_witness :
    ¬((initialState "Prod" "QA").approved = true ∧
      (initialState "Prod" "QA").exhausted = true) :=
  claim_C2 3 (initialState "Prod" "QA") (Reach.init "Prod" "QA")

/-- C5 counterexample: the claim quantifies over every terminal state,
including accepted-but-not-exhausted ones; applying the generate step to
a state with approved = true and exhausted = false does call the
generator and changes the state, so the claim as stated is false. -/
theorem claim_C5_counterexample :
    _creator_node (fun _ => "changed")
        ⟨"Prod", "QA", "c", none, true, [], [], false⟩
      ≠ (⟨"Prod", "QA", "c", none, true, [], [], false⟩ : GraphState) := by
  decide

/-- C5 (amended): applying a controller transition (the generate step or
the evaluate step) to a state with exhausted = true returns that state
identical and unchanged, with no generator or evaluator call performed
(the result is the same for every capability function). States with
approved = true but exhausted = false are never re-entered by the router,
but the node functions themselves are not no-ops on them. -/
theorem claim_C5 (f : Option String → String) (e : String → Evaluation)
    (max_attempts : Nat) (s : GraphState) (h : s.exhausted = true) :
    _creator_node f s = s ∧ _critic_node e max_attempts s = s :=
  ⟨creator_node_pass f s h, critic_node_pass e max_attempts s h⟩

theorem claim_C5_witness :
    (⟨"Prod", "QA", "c", none, false, [], [], true⟩ : GraphState).exhausted = true ∧
    _creator_node (fun _ => "changed") ⟨"Prod", "QA", "c", none, false, [], [], true⟩
      = (⟨"Prod", "QA", "c", none, false, [], [], true⟩ : GraphState) ∧
    _critic_node (fun _ => ⟨false, "no", []⟩) 3 ⟨"Prod", "QA", "c", none, false, [], [], true⟩
      = (⟨"Prod", "QA", "c", none, false, [], [], true⟩ : GraphState) :=
  ⟨rfl,
   (claim_C5 (fun _ => "changed") (fun _ => ⟨false, "no", []⟩) 3
      ⟨"Prod", "QA", "c", none, false, [], [], true⟩ rfl).1,
   (claim_C5 (fun _ => "changed") (fun _ => ⟨false, "no", []⟩) 3
      ⟨"Prod", "QA", "c", none, false, [], [], true⟩ rfl).2⟩

/-- C7: the history is append-only. The generate step never touches it;
each evaluate step from a non-exhausted state appends exactly one
Attempt, built from the current candidate and its verdict, leaving all
previously appended Attempts in place; the exhausted pass-through leaves
it untouched; and a run that performs its iterations from an initial
state ends with history length exactly the iteration count. -/
theorem claim_C7 :
    (∀ (f : Option String → String) (s : GraphState),
      (_creator_node f s).attempts = s.attempts) ∧
    (∀ (e : String → Evaluation) (m : Nat) (s : GraphState), s.exhausted = false →
      (_critic_node e m s).attempts
        = s.attempts ++ [{ caption := s.caption, evaluation := e s.caption }]) ∧
    (∀ (e : String → Evaluation) (m : Nat) (s : GraphState), s.exhausted = true →
      (_critic_node e m s).attempts = s.attempts) ∧
    (∀ (gen : Nat → Option String → String) (eval : Nat → String → Evaluation)
      (m fuel : Nat) (product audience : String),
      (runGraphAux gen eval m fuel 0 (initialState product audience)).1.attempts.length
        = (runGraphAux gen eval m fuel 0 (initialState product audience)).2) := by
  refine ⟨?_, ?_, ?_, ?_⟩
  · intro f s
    exact (creator_node_fields f s).2.2.1
  · intro e m s h
    exact critic_node_attempts e m s h
  · intro e m s h
    rw [critic_node_pass e m s h]
  · intro gen eval m fuel product audience
    have := run_len gen eval m fuel 0 (initialState product audience) rfl
    simpa [initialState] using this

theorem claim_C7_witness :
    (_creator_node (fun _ => "x") (initialState "Prod" "QA")).attempts
      = (initialState "Prod" "QA").attempts ∧
    (_critic_node (fun _ => ⟨false, "no", []⟩) 2 (initialState "Prod" "QA")).attempts
      = (initialState "Prod" "QA").attempts ++
          [{ caption := (initialState "Prod" "QA").caption,
             evaluation := (fun (_ : String) => (⟨false, "no", []⟩ : Evaluation))
               (initialState "Prod" "QA").caption }] ∧
    (_critic_node (fun _ => ⟨false, "no", []⟩) 2
        ⟨"Prod", "QA", "c", none, false, [], [], true⟩).attempts
      = (⟨"Prod", "QA", "c", none, false, [], [], true⟩ : GraphState).attempts ∧
    (runGraphAux (fun _ _ => "x") (fun _ _ => ⟨false, "no", []⟩) 2 2 0
        (initialState "Prod" "QA")).1.attempts.length
      = (runGraphAux (fun _ _ => "x") (fun _ _ => ⟨false, "no", []⟩) 2 2 0
        (initialState "Prod" "QA")).2 :=
  ⟨claim_C7.1 (fun _ => "x") (initialState "Prod" "QA"),
   claim_C7.2.1 (fun _ => ⟨false, "no", []⟩) 2 (initialState "Prod" "QA") rfl,
   claim_C7.2.2.1 (fun _ => ⟨false, "no", []⟩) 2
     ⟨"Prod", "QA", "c", none, false, [], [], true⟩ rfl,
   claim_C7.2.2.2 (fun _ _ => "x") (fun _ _ => ⟨false, "no", []⟩) 2 2 "Prod" "QA"⟩

/-- C9: for every model identifier containing an Ollama-style colon tag
paired with provider openai, run construction fails eagerly inside
_build_llm with the descriptive guardrail message, before the graph is
built, before any generator or evaluator call, and before any loop
iteration runs; the error propagates as a hard failure (no retry), so
the run produces no state at all. -/
theorem claim_C9 (gen : Nat → Option String → String)
    (eval : Nat → String → Evaluation) (product audience : String)
    (max_attempts : Nat) (creator_mode critic_mode model : String)
    (temperature : Rat) (base_url : String)
    (api_key openai_base_url : Option String) (fuel : Nat)
    (h : pyIn ":" model = true) :
    run_workflow gen eval product audience max_attempts creator_mode critic_mode
        model temperature base_url "openai" api_key openai_base_url fuel
      = Except.error ollamaTagMsg := by
  unfold run_workflow _build_llm
  rw [if_pos rfl, if_pos h]

theorem claim_C9_witness :
    pyIn ":" "llama3:8b" = true ∧
    run_workflow (fun _ _ => "cap") (fun _ _ => ⟨false, "no", []⟩) "Prod" "QA" 5
        "llm" "llm" "llama3:8b" (4 / 10) "http://localhost:11434" "openai" none none 9
      = Except.error ollamaTagMsg :=
  ⟨rfl,
   claim_C9 (fun _ _ => "cap") (fun _ _ => ⟨false, "no", []⟩) "Prod" "QA" 5
     "llm" "llm" "llama3:8b" (4 / 10) "http://localhost:11434" none none 9 rfl⟩

/-- C10: for the built-in template generator, propose always returns a
freshly formatted template, one of the four instance templates with
product and audience substituted, for every feedback argument including a
present rejection reason: the attempt memory of a freshly constructed
Creator is empty, no operation appends to it, and with an empty memory
the feedback-application branch of propose is unreachable. -/
theorem claim_C10 (product audience : String) (pick : Nat)
    (feedback : Option String) :
    (Creator.init product audience).attempts = [] ∧
    Creator.propose (Creator.init product audience) pick feedback
      = pyFormat ((Creator.init product audience).templates.getD (pick % 4) "")
          product audience ∧
    Creator.propose (Creator.init product audience) pick feedback
      ∈ (Creator.init product audience).templates.map
          (fun t => pyFormat t product audience) := by
  refine ⟨rfl, ?_, ?_⟩
  · cases feedback <;> rfl
  · have hmod : pick % 4 < 4 := Nat.mod_lt _ (by omega)
    have hprop : Creator.propose (Creator.init product audience) pick feedback
        = pyFormat ((Creator.init product audience).templates.getD (pick % 4) "")
            product audience := by
      cases feedback <;> rfl
    rw [hprop]
    interval_cases h : pick % 4 <;> simp [Creator.init]

/-! ## Branch lemmas for the critic node -/

lemma critic_node_exhaust (e : String → Evaluation) (m : Nat) (s : GraphState)
    (h : s.exhausted = false) (hv : (e s.caption).approved = false)
    (hlen : m ≤ s.attempts.length + 1) :
    _critic_node e m s =
      { s with
          feedback := some (exhaustMsg m (e s.caption).feedback),
          approved := false,
          attempts := s.attempts ++ [{ caption := s.caption, evaluation := e s.caption }],
          metadata := dictUpdate (dictUpdate (e s.caption).metadata "status" "rejected")
            "exhausted" "true",
          exhausted := true } := by
  unfold _critic_node
  rw [h, if_neg (by simp)]
  dsimp only
  rw [if_pos ⟨by simpa using hlen, hv⟩]

lemma critic_node_copy (e : String → Evaluation) (m : Nat) (s : GraphState)
    (h : s.exhausted = false)
    (hcond : ¬(m ≤ s.attempts.length + 1 ∧ (e s.caption).approved = false)) :
    _critic_node e m s =
      { s with
          feedback := some (e s.caption).feedback,
          approved := (e s.caption).approved,
          attempts := s.attempts ++ [{ caption := s.caption, evaluation := e s.caption }],
          metadata := (e s.caption).metadata,
          exhausted := false } := by
  unfold _critic_node
  rw [h, if_neg (by simp)]
  dsimp only
  rw [if_neg (by simpa using hcond)]

/-- The exhaustion feedback message starts with the budget-exhausted
marker, so Python substring membership of the marker holds. -/
lemma exhaust_msg_contains (fb : String) :
    pyIn "Attempt budget exhausted" (exhaustMsg 0 fb) = true := by
  obtain ⟨l⟩ := fb
  rfl

/-- C4: on every evaluate step from a non-exhausted state, when the
verdict is rejected and the post-append history length reaches
max_attempts the controller marks exhaustion: accepted false, feedback
exactly the budget-exhausted message built from max_attempts and the
verdict reasons, attributes the verdict attributes merged with a
rejected status and an exhausted marker; otherwise it copies the verdict
accepted flag, reasons and attributes into the state unchanged. -/
theorem claim_C4 (e : String → Evaluation) (max_attempts : Nat) (s : GraphState)
    (h : s.exhausted = false) :
    ((e s.caption).approved = false → max_attempts ≤ s.attempts.length + 1 →
      _critic_node e max_attempts s =
        { s with
            feedback := some (exhaustMsg max_attempts (e s.caption).feedback),
            approved := false,
            attempts := s.attempts ++ [{ caption := s.caption, evaluation := e s.caption }],
            metadata := dictUpdate (dictUpdate (e s.caption).metadata "status" "rejected")
              "exhausted" "true",
            exhausted := true }) ∧
    ((e s.caption).approved = true ∨ s.attempts.length + 1 < max_attempts →
      _critic_node e max_attempts s =
        { s with
            feedback := some (e s.caption).feedback,
            approved := (e s.caption).approved,
            attempts := s.attempts ++ [{ caption := s.caption, evaluation := e s.caption }],
            metadata := (e s.caption).metadata,
            exhausted := false }) := by
  constructor
  · intro hv hlen
    exact critic_node_exhaust e max_attempts s h hv hlen
  · intro hor
    refine critic_node_copy e max_attempts s h ?_
    rintro ⟨hle, happ⟩
    rcases hor with hv | hlt
    · rw [hv] at happ; cases happ
    · omega

theorem claim_C4_witness :
    (initialState "Prod" "QA").exhausted = false ∧
    _critic_node (fun _ => ⟨false, "bad", [("status", "rejected")]⟩) 1
        (initialState "Prod" "QA")
      = { initialState "Prod" "QA" with
            feedback := some (exhaustMsg 1 "bad"),
            approved := false,
            attempts := [{ caption := "", evaluation := ⟨false, "bad", [("status", "rejected")]⟩ }],
            metadata := dictUpdate (dictUpdate [("status", "rejected")] "status" "rejected")
              "exhausted" "true",
            exhausted := true } ∧
    _critic_node (fun _ => ⟨true, "Approved", [("status", "approved")]⟩) 5
        (initialState "Prod" "QA")
      = { initialState "Prod" "QA" with
            feedback := some "Approved",
            approved := true,
            attempts := [{ caption := "", evaluation := ⟨true, "Approved", [("status", "approved")]⟩ }],
            metadata := [("status", "approved")],
            exhausted := false } :=
  ⟨rfl,
   (claim_C4 (fun _ => ⟨false, "bad", [("status", "rejected")]⟩) 1
      (initialState "Prod" "QA") rfl).1 rfl (by decide),
   (claim_C4 (fun _ => ⟨true, "Approved", [("status", "approved")]⟩) 5
      (initialState "Prod" "QA") rfl).2 (Or.inl rfl)⟩

/-- C3: with max_attempts = 0 a fresh run performs exactly one iteration
(one generate call and one evaluate call); when that single verdict is
rejected the final state has exhausted = true and approved = false and
its feedback contains the budget-exhausted marker; a second iteration
never happens. -/
theorem claim_C3 (gen : Nat → Option String → String)
    (eval : Nat → String → Evaluation) (product audience : String)
    (fuel : Nat) (hf : 1 ≤ fuel) :
    (runGraphAux gen eval 0 fuel 0 (initialState product audience)).2 = 1 ∧
    ((eval 0 (gen 0 none)).approved = false →
      (runGraphAux gen eval 0 fuel 0 (initialState product audience)).1.exhausted = true ∧
      (runGraphAux gen eval 0 fuel 0 (initialState product audience)).1.approved = false ∧
      ∃ msg,
        (runGraphAux gen eval 0 fuel 0 (initialState product audience)).1.feedback
          = some msg ∧
        pyIn "Attempt budget exhausted" msg = true) := by
  obtain ⟨fuel', rfl⟩ : ∃ g, fuel = g + 1 := ⟨fuel - 1, by omega⟩
  have hcex : (_creator_node (gen 0) (initialState product audience)).exhausted = false := rfl
  have hdone :
      _route (_critic_node (eval 0) 0 (_creator_node (gen 0)
        (initialState product audience))) = "done" := by
    by_contra hd
    have hflags := (route_done_iff _).not.mp hd
    push_neg at hflags
    have hretry := critic_node_retry (eval 0) 0 _ hcex
      (by simpa using hflags.1) (by simpa using hflags.2)
    omega
  have hrun : runGraphAux gen eval 0 (fuel' + 1) 0 (initialState product audience)
      = (_critic_node (eval 0) 0 (_creator_node (gen 0) (initialState product audience)), 1) := by
    simp only [runGraphAux, hdone, if_pos]
  constructor
  · rw [hrun]
  · intro hv
    have hexh := critic_node_exhaust (eval 0) 0
      (_creator_node (gen 0) (initialState product audience)) hcex hv (Nat.zero_le _)
    rw [hrun, hexh]
    exact ⟨rfl, rfl, exhaustMsg 0 (eval 0 (gen 0 none)).feedback, rfl,
      exhaust_msg_contains _⟩

theorem claim_C3_witness :
    1 ≤ 1 ∧
    (runGraphAux (fun _ _ => "cap") (fun _ _ => ⟨false, "no", []⟩) 0 1 0
      (initialState "Prod" "QA")).2 = 1 ∧
    ((fun (_ : Nat) (_ : String) => (⟨false, "no", []⟩ : Evaluation)) 0
        ((fun (_ : Nat) (_ : Option String) => "cap") 0 none)).approved = false ∧
    (runGraphAux (fun _ _ => "cap") (fun _ _ => ⟨false, "no", []⟩) 0 1 0
      (initialState "Prod" "QA")).1.exhausted = true ∧
    (runGraphAux (fun _ _ => "cap") (fun _ _ => ⟨false, "no", []⟩) 0 1 0
      (initialState "Prod" "QA")).1.approved = false ∧
    ∃ msg,
      (runGraphAux (fun _ _ => "cap") (fun _ _ => ⟨false, "no", []⟩) 0 1 0
        (initialState "Prod" "QA")).1.feedback = some msg ∧
      pyIn "Attempt budget exhausted" msg = true := by
  have hc := claim_C3 (fun _ _ => "cap") (fun _ _ => ⟨false, "no", []⟩) "Prod" "QA" 1
    (by decide)
  have hres := hc.2 rfl
  exact ⟨by decide, hc.1, rfl, hres.1, hres.2.1, hres.2.2⟩

/-- C6: for every candidate, the reference evaluator checks the four
rules in the fixed order (emoji present, word count within the
configured maximum, product name as case-insensitive substring, no
case-insensitive blocklist term); with zero failures it accepts with the
fixed acknowledgement and attributes status approved, length, word_count
and brand_safety_check passed; with one or more failures it rejects with
the space-joined messages of every failed rule in that order and
attributes containing only the rejected status. -/
theorem claim_C6 (product caption : String) (max_words : Nat) :
    Critic.evaluate (Critic.init product max_words) caption =
      (if failedMessages product max_words caption = [] then
        { approved := true, feedback := "Approved",
          metadata :=
            [ ("status", "approved"), ("length", toString caption.length),
              ("word_count", toString (pySplit caption).length),
              ("brand_safety_check", "passed") ] }
      else
        { approved := false,
          feedback := joinSep " " (failedMessages product max_words caption),
          metadata := [("status", "rejected")] }) := by
  by_cases h1 : contains_emoji caption = false <;>
  by_cases h2 : max_words < (pySplit caption).length <;>
  by_cases h3 : pyIn (pyLower product) (pyLower caption) = false <;>
  by_cases h4 : ["kill", "violence", "hate"].any (fun term => pyIn term (pyLower caption)) = true <;>
    simp [Critic.evaluate, Critic.init, ruleChecks, failedMessages, joinSep,
      h1, h2, h3, h4]

/-- C8: for every product, audience, candidate and attribute mapping
whose length and word_count entries (when present) parse as integers,
the final-payload projection returns the fixed envelope: version 1.0,
task creative_generation, payload with the target audience, a singleton
text_ad creative asset holding the candidate, and the product; metadata
with length and word_count parsed from the attributes when present and
otherwise recomputed from the candidate (character count and
whitespace-split word count), the fixed sentiment label, and
brand_safety_check defaulting to unknown when absent. -/
theorem claim_C8 (product audience caption : String)
    (meta : List (String × String))
    (hl : attrParses (dictGet meta "length") = true)
    (hw : attrParses (dictGet meta "word_count") = true) :
    ∃ p, build_adcp_payload product audience caption meta = some p ∧
      p.adcp_version = "1.0" ∧ p.task = "creative_generation" ∧
      p.payload.target_audience = audience ∧
      p.payload.creative_assets = [{ type := "text_ad", content := caption }] ∧
      p.payload.product = product ∧
      p.metadata.sentiment = "energetic" ∧
      p.metadata.brand_safety_check = (dictGet meta "brand_safety_check").getD "unknown" ∧
      (dictGet meta "length" = none → p.metadata.length = Int.ofNat caption.length) ∧
      (∀ v, dictGet meta "length" = some v → pyInt v = some p.metadata.length) ∧
      (dictGet meta "word_count" = none →
        p.metadata.word_count = Int.ofNat (pySplit caption).length) ∧
      (∀ v, dictGet meta "word_count" = some v → pyInt v = some p.metadata.word_count) := by
  have hLv : ∃ l, (match dictGet meta "length" with
      | some v => pyInt v
      | none => some (Int.ofNat caption.length)) = some l ∧
      (dictGet meta "length" = none → l = Int.ofNat caption.length) ∧
      (∀ v, dictGet meta "length" = some v → pyInt v = some l) := by
    cases hL : dictGet meta "length" with
    | none => exact ⟨_, rfl, fun _ => rfl, fun v hv => by cases hv⟩
    | some lv =>
      rw [hL] at hl
      simp only [attrParses] at hl
      obtain ⟨ln, hln⟩ := Option.isSome_iff_exists.mp hl
      refine ⟨ln, hln, fun hnone => ?_, fun v hv => ?_⟩
      · cases hnone
      · injection hv with hveq
        rw [← hveq]
        exact hln
  have hWv : ∃ w, (match dictGet meta "word_count" with
      | some v => pyInt v
      | none => some (Int.ofNat (pySplit caption).length)) = some w ∧
      (dictGet meta "word_count" = none → w = Int.ofNat (pySplit caption).length) ∧
      (∀ v, dictGet meta "word_count" = some v → pyInt v = some w) := by
    cases hW : dictGet meta "word_count" with
    | none => exact ⟨_, rfl, fun _ => rfl, fun v hv => by cases hv⟩
    | some wv =>
      rw [hW] at hw
      simp only [attrParses] at hw
      obtain ⟨wn, hwn⟩ := Option.isSome_iff_exists.mp hw
      refine ⟨wn, hwn, fun hnone => ?_, fun v hv => ?_⟩
      · cases hnone
      · injection hv with hveq
        rw [← hveq]
        exact hwn
  obtain ⟨l, hleq, hlnone, hlsome⟩ := hLv
  obtain ⟨w, hweq, hwnone, hwsome⟩ := hWv
  refine ⟨{ adcp_version := "1.0", task := "creative_generation",
            payload :=
              { target_audience := audience,
                creative_assets := [{ type := "text_ad", content := caption }],
                product := product },
            metadata :=
              { length := l, word_count := w, sentiment := "energetic",
                brand_safety_check := (dictGet meta "brand_safety_check").getD "unknown" } },
    ?_, rfl, rfl, rfl, rfl, rfl, rfl, rfl, ?_, ?_, ?_, ?_⟩
  · simp only [build_adcp_payload, hleq, hweq]
  · intro hnone
    exact hlnone hnone
  · intro v hv
    exact hlsome v hv
  · intro hnone
    exact hwnone hnone
  · intro v hv
    exact hwsome v hv

theorem claim_C8_witness :
    attrParses (dictGet [("length", "12"), ("word_count", "3"),
      ("brand_safety_check", "passed")] "length") = true ∧
    attrParses (dictGet [("length", "12"), ("word_count", "3"),
      ("brand_safety_check", "passed")] "word_count") = true ∧
    ∃ p, build_adcp_payload "Prod" "QA" "Prod rocks ⚡"
        [("length", "12"), ("word_count", "3"), ("brand_safety_check", "passed")]
        = some p ∧
      p.adcp_version = "1.0" ∧ p.task = "creative_generation" ∧
      p.payload.target_audience = "QA" ∧
      p.payload.creative_assets = [{ type := "text_ad", content := "Prod rocks ⚡" }] ∧
      p.payload.product = "Prod" ∧
      p.metadata.sentiment = "energetic" ∧
      p.metadata.brand_safety_check
        = (dictGet [("length", "12"), ("word_count", "3"),
            ("brand_safety_check", "passed")] "brand_safety_check").getD "unknown" ∧
      (dictGet [("length", "12"), ("word_count", "3"),
          ("brand_safety_check", "passed")] "length" = none →
        p.metadata.length = Int.ofNat ("Prod rocks ⚡" : String).length) ∧
      (∀ v, dictGet [("length", "12"), ("word_count", "3"),
          ("brand_safety_check", "passed")] "length" = some v →
        pyInt v = some p.metadata.length) ∧
      (dictGet [("length", "12"), ("word_count", "3"),
          ("brand_safety_check", "passed")] "word_count" = none →
        p.metadata.word_count = Int.ofNat (pySplit "Prod rocks ⚡").length) ∧
      (∀ v, dictGet [("length", "12"), ("word_count", "3"),
          ("brand_safety_check", "passed")] "word_count" = some v →
        pyInt v = some p.metadata.word_count) :=
  ⟨rfl, rfl,
   claim_C8 "Prod" "QA" "Prod rocks ⚡"
     [("length", "12"), ("word_count", "3"), ("brand_safety_check", "passed")] rfl rfl⟩
